import Mathlib

/-!
Shallow embedding of the Hourglass timer utility (`src/src-tauri/src/main.rs`).

The program keeps a mutex-guarded `NotificationState` (enabled flag, optional
start/end date strings, optional handle of the background scheduler task) and
exposes Tauri commands over it.  Dates are parsed with
`chrono::DateTime::parse_from_rfc3339`; parsing is external library code, so it
is embedded abstractly as a function `parse : String → Option Int` returning
the timestamp in milliseconds when the string is a valid RFC 3339 date.  The
current instant `chrono::Utc::now()` is likewise passed in as an explicit
`now : Int` in milliseconds.  Rust `i64` division/remainder truncate toward
zero, so they are embedded as `Int.tdiv` / `Int.tmod`; the deltas in play are
small enough that `i64` overflow cannot occur, so plain `Int` is faithful.
-/

namespace Hourglass

/-- The `TimeRemaining` struct (main.rs lines 20–28). -/
structure TimeRemaining where
  days : Int
  hours : Int
  minutes : Int
  seconds : Int
  total_ms : Int
  is_expired : Bool
deriving DecidableEq, Repr

/-- A snapshot of the mutex-guarded contents of `NotificationState`
(main.rs lines 13–18).  The `tokio::task::JoinHandle` is embedded as a task
identifier (`Nat`). -/
structure NotificationState where
  is_enabled : Bool
  handle : Option Nat
  start_date : Option String
  end_date : Option String
deriving DecidableEq, Repr

/-- `NotificationState::default` (main.rs lines 30–39): enabled by default,
no task handle, no dates. -/
def NotificationState.default : NotificationState :=
  { is_enabled := true, handle := none, start_date := none, end_date := none }

/-- `calculate_time_components` (main.rs lines 41–48).  Rust `i64` `/` and `%`
truncate toward zero, hence `Int.tdiv` / `Int.tmod`. -/
def calculate_time_components (time_remaining_ms : Int) : Int × Int × Int × Int :=
  let total_seconds := time_remaining_ms.tdiv 1000
  let days := total_seconds.tdiv (24 * 60 * 60)
  let hours := (total_seconds.tmod (24 * 60 * 60)).tdiv (60 * 60)
  let minutes := (total_seconds.tmod (60 * 60)).tdiv 60
  let seconds := total_seconds.tmod 60
  (days, hours, minutes, seconds)

/-- `get_time_remaining` (main.rs lines 79–115).  The command clones both date
cells and requires `(Some(_), Some(end))` — note that the *presence* of the
start date is checked even though its value is unused.  The chrono error text
is abstracted to the constant prefix of the formatted message. -/
def get_time_remaining (parse : String → Option Int) (now : Int)
    (state : NotificationState) : Except String TimeRemaining :=
  match state.start_date, state.end_date with
  | some _, some e =>
    match parse e with
    | none => Except.error "Invalid end date"
    | some end_time =>
      let time_remaining := end_time - now
      if time_remaining ≤ 0 then
        Except.ok ⟨0, 0, 0, 0, 0, true⟩
      else
        let c := calculate_time_components time_remaining
        Except.ok ⟨c.1, c.2.1, c.2.2.1, c.2.2.2, time_remaining, false⟩
  | _, _ => Except.error "Timer dates not set"

/-- `set_timer_dates` (main.rs lines 56–77): validate both inputs before
storing; on success overwrite both stored dates.  Returns the state after the
call together with the command result. -/
def set_timer_dates (parse : String → Option Int) (state : NotificationState)
    (start_date end_date : String) : NotificationState × Except String Unit :=
  match parse start_date with
  | none => (state, Except.error "Invalid start date format")
  | some _ =>
    match parse end_date with
    | none => (state, Except.error "Invalid end date format")
    | some _ =>
      ({ state with start_date := some start_date, end_date := some end_date },
        Except.ok ())

/-- A parse function that accepts every string as timestamp `t`
(used for concrete witnesses). -/
def parseConst (t : Int) : String → Option Int := fun _ => some t

/-- A parse function that rejects every string
(used for concrete witnesses). -/
def parseNone : String → Option Int := fun _ => none

/-- C7: for every positive millisecond delta D, the four components returned by
calculate_time_components reassemble to floor(D / 1000) seconds. -/
theorem C7_components_reassemble (D : Int) (hD : 0 < D) :
    (((calculate_time_components D).1 * 24 + (calculate_time_components D).2.1) * 60 +
        (calculate_time_components D).2.2.1) * 60 + (calculate_time_components D).2.2.2 =
      D / 1000 := by
  unfold calculate_time_components
  have h1000 : D.tdiv 1000 = D / 1000 := Int.tdiv_eq_ediv (le_of_lt hD) (by norm_num)
  have hts : 0 ≤ D / 1000 := Int.ediv_nonneg (le_of_lt hD) (by norm_num)
  simp only [h1000]
  rw [Int.tdiv_eq_ediv hts (by norm_num),
    Int.tmod_eq_emod hts (by norm_num),
    Int.tmod_eq_emod hts (by norm_num),
    Int.tmod_eq_emod hts (by norm_num),
    Int.tdiv_eq_ediv (Int.emod_nonneg _ (by norm_num)) (by norm_num),
    Int.tdiv_eq_ediv (Int.emod_nonneg _ (by norm_num)) (by norm_num)]
  omega

/-- Witness for C7 at D = 90061234 ms. -/
theorem C7_components_reassemble_witness :
    (0 : Int) < 90061234 ∧
      (((calculate_time_components 90061234).1 * 24 +
            (calculate_time_components 90061234).2.1) * 60 +
          (calculate_time_components 90061234).2.2.1) * 60 +
        (calculate_time_components 90061234).2.2.2 = (90061234 : Int) / 1000 :=
  ⟨by decide, C7_components_reassemble 90061234 (by decide)⟩

/-- C6: with both dates present, the end date parseable and the delta to now
nonpositive, get_time_remaining returns exactly the expired sentinel. -/
theorem C6_expired_sentinel (parse : String → Option Int) (now : Int)
    (state : NotificationState) (s e : String) (t : Int)
    (hs : state.start_date = some s) (he : state.end_date = some e)
    (hp : parse e = some t) (hle : t - now ≤ 0) :
    get_time_remaining parse now state = Except.ok ⟨0, 0, 0, 0, 0, true⟩ := by
  simp [get_time_remaining, hs, he, hp, hle]

/-- Witness for C6: end timestamp 0, now 5. -/
theorem C6_expired_sentinel_witness :
    get_time_remaining (parseConst 0) 5
        { is_enabled := true, handle := none,
          start_date := some "2020-01-01T00:00:00Z",
          end_date := some "2020-01-01T00:00:00Z" } =
      Except.ok ⟨0, 0, 0, 0, 0, true⟩ :=
  C6_expired_sentinel (parseConst 0) 5 _ "2020-01-01T00:00:00Z"
    "2020-01-01T00:00:00Z" 0 rfl rfl rfl (by decide)

/-- C9 counterexample: 90,000,000 ms is exactly 25 hours, so the components are
(1, 1, 0, 0), not (1, 1, 3, 20) as the claim states. -/
theorem C9_counterexample :
    calculate_time_components 90000000 = (1, 1, 0, 0) ∧
      ((1, 1, 0, 0) : Int × Int × Int × Int) ≠ (1, 1, 3, 20) := by
  constructor
  · decide
  · decide

/-- C9 amended: an end date exactly 90,000,000 ms in the future yields
days = 1, hours = 1, minutes = 0, seconds = 0, is expired false. -/
theorem C9_amended_components (parse : String → Option Int) (now : Int)
    (state : NotificationState) (s e : String) (t : Int)
    (hs : state.start_date = some s) (he : state.end_date = some e)
    (hp : parse e = some t) (ht : t - now = 90000000) :
    get_time_remaining parse now state =
      Except.ok ⟨1, 1, 0, 0, 90000000, false⟩ := by
  have hc : calculate_time_components 90000000 = (1, 1, 0, 0) := by decide
  simp [get_time_remaining, hs, he, hp, ht, hc]

/-- Witness for C9 amended: end timestamp 90,000,000, now 0. -/
theorem C9_amended_components_witness :
    get_time_remaining (parseConst 90000000) 0
        { is_enabled := true, handle := none,
          start_date := some "2020-01-01T00:00:00Z",
          end_date := some "2020-01-02T01:00:00Z" } =
      Except.ok ⟨1, 1, 0, 0, 90000000, false⟩ :=
  C9_amended_components (parseConst 90000000) 0 _ "2020-01-01T00:00:00Z"
    "2020-01-02T01:00:00Z" 90000000 rfl rfl rfl (by decide)

/-- C4 counterexample: with the start date unset but a set, parseable end date,
the code still fails with the not-configured error, although the claim says
this situation must succeed (the not-configured error arising exactly when the
end date is unset, the start date never affecting the result). -/
theorem C4_counterexample :
    get_time_remaining (parseConst 1000) 0
        { is_enabled := true, handle := none, start_date := none,
          end_date := some "2030-01-01T00:00:00Z" } =
      Except.error "Timer dates not set" ∧
      ({ is_enabled := true, handle := none, start_date := none,
          end_date := some "2030-01-01T00:00:00Z" } : NotificationState).end_date ≠
        none ∧
      parseConst 1000 "2030-01-01T00:00:00Z" ≠ none := by
  refine ⟨rfl, by decide, by decide⟩

/-- C4 amended: get_time_remaining fails with the not-configured error exactly
when the start date or the end date is unset; with both set it fails with the
invalid-date error exactly when the end date is unparsable and otherwise
succeeds; the *value* of the stored start date never affects the result (only
its presence is checked). -/
theorem C4_amended_error_conditions (parse : String → Option Int) (now : Int)
    (state : NotificationState) (e s1 s2 : String) :
    (get_time_remaining parse now state = Except.error "Timer dates not set" ↔
      state.start_date = none ∨ state.end_date = none) ∧
    (state.start_date ≠ none → state.end_date = some e → parse e = none →
      get_time_remaining parse now state = Except.error "Invalid end date") ∧
    (state.start_date ≠ none → state.end_date = some e → parse e ≠ none →
      ∃ r, get_time_remaining parse now state = Except.ok r) ∧
    get_time_remaining parse now { state with start_date := some s1 } =
      get_time_remaining parse now { state with start_date := some s2 } := by
  rcases hsd : state.start_date with _ | sd <;> rcases hed : state.end_date with _ | ed
  · simp [get_time_remaining, hsd, hed]
  · simp [get_time_remaining, hsd, hed]
  · simp [get_time_remaining, hsd, hed]
  · refine ⟨?_, ?_, ?_, ?_⟩
    · rcases hp : parse ed with _ | t
      · simp [get_time_remaining, hsd, hed, hp]
      · by_cases hle : t - now ≤ 0 <;> simp [get_time_remaining, hsd, hed, hp, hle]
    · intro _ hee hp
      rw [Option.some.injEq] at hee
      subst hee
      simp [get_time_remaining, hsd, hed, hp]
    · intro _ hee hp
      rw [Option.some.injEq] at hee
      subst hee
      rcases hpe : parse ed with _ | t
      · exact absurd hpe hp
      · by_cases hle : t - now ≤ 0
        · exact ⟨⟨0, 0, 0, 0, 0, true⟩, by simp [get_time_remaining, hsd, hed, hpe, hle]⟩
        · exact ⟨⟨(calculate_time_components (t - now)).1,
            (calculate_time_components (t - now)).2.1,
            (calculate_time_components (t - now)).2.2.1,
            (calculate_time_components (t - now)).2.2.2, t - now, false⟩,
            by simp [get_time_remaining, hsd, hed, hpe, hle]⟩
    · rcases hp : parse ed with _ | t
      · simp [get_time_remaining, hed, hp]
      · by_cases hle : t - now ≤ 0 <;> simp [get_time_remaining, hed, hp, hle]

/-- Witness for C4 amended at a concrete state with both dates set and a
parsing end date. -/
theorem C4_amended_error_conditions_witness :
    (get_time_remaining (parseConst 7) 0
          { is_enabled := true, handle := none, start_date := some "a",
            end_date := some "b" } =
        Except.error "Timer dates not set" ↔
      ({ is_enabled := true, handle := none, start_date := some "a",
          end_date := some "b" } : NotificationState).start_date = none ∨
        ({ is_enabled := true, handle := none, start_date := some "a",
            end_date := some "b" } : NotificationState).end_date = none) ∧
    (({ is_enabled := true, handle := none, start_date := some "a",
          end_date := some "b" } : NotificationState).start_date ≠ none →
      ({ is_enabled := true, handle := none, start_date := some "a",
          end_date := some "b" } : NotificationState).end_date = some "b" →
      parseConst 7 "b" = none →
      get_time_remaining (parseConst 7) 0
          { is_enabled := true, handle := none, start_date := some "a",
            end_date := some "b" } =
        Except.error "Invalid end date") ∧
    (({ is_enabled := true, handle := none, start_date := some "a",
          end_date := some "b" } : NotificationState).start_date ≠ none →
      ({ is_enabled := true, handle := none, start_date := some "a",
          end_date := some "b" } : NotificationState).end_date = some "b" →
      parseConst 7 "b" ≠ none →
      ∃ r, get_time_remaining (parseConst 7) 0
          { is_enabled := true, handle := none, start_date := some "a",
            end_date := some "b" } = Except.ok r) ∧
    get_time_remaining (parseConst 7) 0
        { is_enabled := true, handle := none, start_date := some "x",
          end_date := some "b" } =
      get_time_remaining (parseConst 7) 0
        { is_enabled := true, handle := none, start_date := some "y",
          end_date := some "b" } :=
  C4_amended_error_conditions (parseConst 7) 0
    { is_enabled := true, handle := none, start_date := some "a",
      end_date := some "b" } "b" "x" "y"

/-- C8: if either input string fails to parse, set_timer_dates returns an error
and leaves the stored dates exactly as they were; if both parse, it overwrites
both dates and returns success. -/
theorem C8_set_dates_atomicity (parse : String → Option Int)
    (state : NotificationState) (s e : String) :
    ((parse s = none ∨ parse e = none) →
      (set_timer_dates parse state s e).1 = state ∧
        ∃ msg, (set_timer_dates parse state s e).2 = Except.error msg) ∧
    (parse s ≠ none → parse e ≠ none →
      (set_timer_dates parse state s e).1 =
          { state with start_date := some s, end_date := some e } ∧
        (set_timer_dates parse state s e).2 = Except.ok ()) := by
  rcases hps : parse s with _ | ts
  · refine ⟨fun _ => ⟨?_, "Invalid start date format", ?_⟩, fun hs _ => absurd rfl hs⟩ <;>
      simp [set_timer_dates, hps]
  · rcases hpe : parse e with _ | te
    · refine ⟨fun _ => ⟨?_, "Invalid end date format", ?_⟩, fun _ he => absurd rfl he⟩ <;>
        simp [set_timer_dates, hps, hpe]
    · refine ⟨fun h => ?_, fun _ _ => ⟨?_, ?_⟩⟩
      · rcases h with h | h <;> exact absurd h (by simp)
      · simp [set_timer_dates, hps, hpe]
      · simp [set_timer_dates, hps, hpe]

/-- Witness for C8 on the failure side (unparsable start string) and success
side is covered by instantiating the conjunction at a rejecting parse. -/
theorem C8_set_dates_atomicity_witness :
    ((parseNone "not-a-date" = none ∨ parseNone "2030-01-01T00:00:00Z" = none) →
      (set_timer_dates parseNone
            { is_enabled := true, handle := none, start_date := some "s0",
              end_date := some "e0" } "not-a-date" "2030-01-01T00:00:00Z").1 =
          { is_enabled := true, handle := none, start_date := some "s0",
            end_date := some "e0" } ∧
        ∃ msg, (set_timer_dates parseNone
            { is_enabled := true, handle := none, start_date := some "s0",
              end_date := some "e0" } "not-a-date" "2030-01-01T00:00:00Z").2 =
          Except.error msg) ∧
    (parseNone "not-a-date" ≠ none → parseNone "2030-01-01T00:00:00Z" ≠ none →
      (set_timer_dates parseNone
            { is_enabled := true, handle := none, start_date := some "s0",
              end_date := some "e0" } "not-a-date" "2030-01-01T00:00:00Z").1 =
          { ({ is_enabled := true, handle := none, start_date := some "s0",
                end_date := some "e0" } : NotificationState) with
            start_date := some "not-a-date",
            end_date := some "2030-01-01T00:00:00Z" } ∧
        (set_timer_dates parseNone
            { is_enabled := true, handle := none, start_date := some "s0",
              end_date := some "e0" } "not-a-date" "2030-01-01T00:00:00Z").2 =
          Except.ok ()) :=
  C8_set_dates_atomicity parseNone
    { is_enabled := true, handle := none, start_date := some "s0",
      end_date := some "e0" } "not-a-date" "2030-01-01T00:00:00Z"

/-!
Task lifecycle.  The commands are serialized by the mutexes, so each command is
modelled as an atomic transition on a `World`: the shared state plus
bookkeeping of spawned scheduler tasks.  `live` holds the identifiers of
spawned tasks whose cancellation has not been requested; `aborted` records
every identifier whose `JoinHandle::abort` was called.  Lock acquisition in a
command can fail only when a prior panic poisoned the mutex, which has no
counterpart in the embedding, so the commands never take the error paths of
`lock()`.
-/

/-- The process state: shared `NotificationState` plus the set of live
scheduler tasks and a supply of fresh task identifiers. -/
structure World where
  state : NotificationState
  live : List Nat
  aborted : List Nat
  next_id : Nat
deriving DecidableEq, Repr

/-- The state installed by `main` via `.manage(NotificationState::default())`
(main.rs line 296): no task has been spawned yet. -/
def initialWorld : World :=
  { state := NotificationState.default, live := [], aborted := [], next_id := 0 }

/-- `if let Some(task) = handle.take() { task.abort(); }` — the abort-and-clear
idiom shared by `start_notifications` (lines 132–137) and `stop_notifications`
(lines 239–244). -/
def abortHandle (w : World) : World :=
  match w.state.handle with
  | some id =>
    { w with
      state := { w.state with handle := none }
      live := w.live.erase id
      aborted := id :: w.aborted }
  | none => w

/-- `tokio::spawn` of the scheduler loop plus storing its handle
(main.rs lines 145 and 222–226). -/
def spawnTask (w : World) : World :=
  { w with
    state := { w.state with handle := some w.next_id }
    live := w.next_id :: w.live
    next_id := w.next_id + 1 }

/-- `start_notifications` (main.rs lines 117–229): if already enabled, return
at once; otherwise set the flag, abort and clear any stale handle, then spawn
the scheduler task and store its handle. -/
def start_notifications (w : World) : World × Except String Unit :=
  if w.state.is_enabled then
    (w, Except.ok ())
  else
    (spawnTask (abortHandle { w with state := { w.state with is_enabled := true } }),
      Except.ok ())

/-- `stop_notifications` (main.rs lines 231–247): clear the flag, then abort
and clear the task handle. -/
def stop_notifications (w : World) : World × Except String Unit :=
  (abortHandle { w with state := { w.state with is_enabled := false } },
    Except.ok ())

/-- The worlds reachable from process start through the state-mutating
commands.  `get_time_remaining` and `get_notification_status` only read the
state, and the scheduler task itself never writes it, so these are all the
transitions. -/
inductive Reachable : World → Prop where
  | init : Reachable initialWorld
  | start {w : World} : Reachable w → Reachable (start_notifications w).1
  | stop {w : World} : Reachable w → Reachable (stop_notifications w).1
  | set {w : World} (parse : String → Option Int) (s e : String) :
      Reachable w → Reachable { w with state := (set_timer_dates parse w.state s e).1 }

/-- The list of tasks a handle refers to. -/
def handleList : Option Nat → List Nat
  | none => []
  | some id => [id]

/-- `set_timer_dates` never touches the enabled flag or the task handle. -/
lemma set_timer_dates_preserves (parse : String → Option Int)
    (state : NotificationState) (s e : String) :
    (set_timer_dates parse state s e).1.is_enabled = state.is_enabled ∧
      (set_timer_dates parse state s e).1.handle = state.handle := by
  unfold set_timer_dates
  rcases parse s with _ | ts
  · exact ⟨rfl, rfl⟩
  · rcases parse e with _ | te
    · exact ⟨rfl, rfl⟩
    · exact ⟨rfl, rfl⟩

/-- In every reachable world, the live scheduler tasks are exactly the one the
stored handle points to (so in particular there is at most one). -/
lemma reachable_live_eq_handle (w : World) (hw : Reachable w) :
    w.live = handleList w.state.handle := by
  induction hw with
  | init => rfl
  | @start w hw ih =>
    obtain ⟨⟨en, hd, sd, ed⟩, live, ab, nid⟩ := w
    cases en
    · cases hd <;> simp_all [start_notifications, abortHandle, spawnTask, handleList]
    · simpa [start_notifications] using ih
  | @stop w hw ih =>
    obtain ⟨⟨en, hd, sd, ed⟩, live, ab, nid⟩ := w
    cases hd <;> simp_all [stop_notifications, abortHandle, handleList]
  | @set w parse s e hw ih =>
    simpa [(set_timer_dates_preserves parse w.state s e).2] using ih

/-- In every reachable world, a stored task handle implies the enabled flag. -/
lemma reachable_handle_imp_enabled (w : World) (hw : Reachable w) :
    ∀ id : Nat, w.state.handle = some id → w.state.is_enabled = true := by
  induction hw with
  | init => intro id h; exact absurd h (by simp [initialWorld, NotificationState.default])
  | @start w hw ih =>
    obtain ⟨⟨en, hd, sd, ed⟩, live, ab, nid⟩ := w
    cases en
    · cases hd <;> intro id h <;>
        simp_all [start_notifications, abortHandle, spawnTask]
    · intro id h
      simp only [start_notifications] at h
      exact rfl
  | @stop w hw ih =>
    obtain ⟨⟨en, hd, sd, ed⟩, live, ab, nid⟩ := w
    cases hd <;> intro id h <;> simp_all [stop_notifications, abortHandle]
  | @set w parse s e hw ih =>
    intro id h
    rw [(set_timer_dates_preserves parse w.state s e).1]
    exact ih id (by rw [← (set_timer_dates_preserves parse w.state s e).2]; exact h)

/-- C1: in every reachable world a stored task handle implies the enabled
flag, and stop_notifications aborts the active task, removes it from the live
set, and clears the handle before returning success. -/
theorem C1_invariant_and_disable (w : World) (id : Nat) (hw : Reachable w)
    (hid : w.state.handle = some id) :
    w.state.is_enabled = true ∧
      (stop_notifications w).1.state.is_enabled = false ∧
      (stop_notifications w).1.state.handle = none ∧
      id ∈ (stop_notifications w).1.aborted ∧
      id ∉ (stop_notifications w).1.live ∧
      (stop_notifications w).2 = Except.ok () := by
  have hlive := reachable_live_eq_handle w hw
  rw [hid] at hlive
  refine ⟨reachable_handle_imp_enabled w hw id hid, ?_, ?_, ?_, ?_, rfl⟩ <;>
    simp [stop_notifications, abortHandle, hid, hlive, handleList]

/-- Witness for C1: the world after disabling then enabling from process
start, whose handle holds task 0. -/
theorem C1_invariant_and_disable_witness :
    (start_notifications (stop_notifications initialWorld).1).1.state.is_enabled = true ∧
      (stop_notifications (start_notifications (stop_notifications initialWorld).1).1).1.state.is_enabled
          = false ∧
      (stop_notifications (start_notifications (stop_notifications initialWorld).1).1).1.state.handle
          = none ∧
      0 ∈ (stop_notifications (start_notifications (stop_notifications initialWorld).1).1).1.aborted ∧
      0 ∉ (stop_notifications (start_notifications (stop_notifications initialWorld).1).1).1.live ∧
      (stop_notifications (start_notifications (stop_notifications initialWorld).1).1).2
          = Except.ok () :=
  C1_invariant_and_disable _ 0 (Reachable.start (Reachable.stop Reachable.init)) rfl

/-- C2 counterexample: in the initial world the enabled flag is already true,
so calling start_notifications twice in a row leaves zero live scheduler
tasks, not exactly one. -/
theorem C2_counterexample :
    ¬ (start_notifications (start_notifications initialWorld).1).1.live.length = 1 := by
  decide

/-- C2 amended: start_notifications is idempotent — when the flag is already
set it returns success at once leaving the world untouched (no abort, no
spawn) — and calling it twice in a row from a reachable world with the flag
clear leaves exactly one live scheduler task.  (From a reachable world with
the flag already set, the live-task count stays as it was — zero from the
initial world.) -/
theorem C2_amended_idempotent (w : World) (hw : Reachable w) :
    (w.state.is_enabled = true → start_notifications w = (w, Except.ok ())) ∧
      (w.state.is_enabled = false →
        (start_notifications (start_notifications w).1).1.live.length = 1) := by
  have hfirst : ∀ w' : World, w'.state.is_enabled = true →
      start_notifications w' = (w', Except.ok ()) := by
    intro w' h
    simp [start_notifications, h]
  refine ⟨hfirst w, fun he => ?_⟩
  have hlive := reachable_live_eq_handle w hw
  have h2 : (start_notifications w).1.live = [w.next_id] := by
    obtain ⟨⟨en, hd, sd, ed⟩, live, ab, nid⟩ := w
    cases en
    · cases hd <;> simp_all [start_notifications, abortHandle, spawnTask, handleList]
    · exact absurd he (by simp)
  have h3 : (start_notifications w).1.state.is_enabled = true := by
    obtain ⟨⟨en, hd, sd, ed⟩, live, ab, nid⟩ := w
    cases en
    · cases hd <;> simp [start_notifications, abortHandle, spawnTask]
    · exact absurd he (by simp)
  simp [hfirst _ h3, h2]

/-- Witness for C2 amended at the world reached by one stop_notifications from
process start (flag clear, no live task). -/
theorem C2_amended_idempotent_witness :
    (start_notifications
        (start_notifications (stop_notifications initialWorld).1).1).1.live.length = 1 :=
  (C2_amended_idempotent _ (Reachable.stop Reachable.init)).2 (by decide)

/-- C10: in the initial world the enabled flag is already true with no task
handle, so the first start_notifications call (the automatic one at app
launch included) returns success without spawning anything: the world is
unchanged and no live scheduler task exists although the flag is set. -/
theorem C10_default_enabled_no_task :
    start_notifications initialWorld = (initialWorld, Except.ok ()) ∧
      initialWorld.state.is_enabled = true ∧
      initialWorld.state.handle = none ∧
      (start_notifications initialWorld).1.live = [] := by
  refine ⟨?_, rfl, rfl, ?_⟩ <;> simp [start_notifications, initialWorld, NotificationState.default]

/-!
The scheduler task (the `tokio::spawn`ed loop, main.rs lines 145–220).  Each
wake observes the lock results of the shared cells and the current instant;
these observations form a `WakeEnv`, and a run of the loop is a function from
the list of successive wake environments to the list of notification bodies
whose delivery was attempted.  The `format!` calls on `i64` values are
embedded by an explicit decimal renderer.
-/

/-- One displayed decimal digit (0–9). -/
def digitChar (n : Nat) : Char := Char.ofNat (48 + n)

/-- Decimal digits of `n`, most significant first; `fuel` bounds the recursion
depth so the definition is structural (and hence kernel-evaluable). -/
def natDecimalAux : Nat → Nat → List Char
  | 0, _ => []
  | fuel + 1, n =>
    if n < 10 then [digitChar n]
    else natDecimalAux fuel (n / 10) ++ [digitChar (n % 10)]

/-- Decimal rendering of a natural number. -/
def natDecimal (n : Nat) : List Char := natDecimalAux (n + 1) n

/-- Decimal rendering of an `i64` as Rust `format!("{}", i)` prints it. -/
def intDecimal (i : Int) : List Char :=
  if i < 0 then '-' :: natDecimal i.natAbs else natDecimal i.toNat

/-- Decimal rendering of an `i64`, as a string. -/
def intDecimalStr (i : Int) : String := String.mk (intDecimal i)

/-- The notification body built by the scheduler loop (main.rs lines 183–206):
both date cells must be present; an unparsable or missing end date yields a
generic fallback; an expired delta yields the expired message; otherwise the
body prints days, hours and minutes according to the largest non-zero unit
(`days`, `hours`, `minutes` are components 1, 2.1, 2.2.1 of
`calculate_time_components`; seconds are discarded by the `_` binder in the
source). -/
def notification_body (parse : String → Option Int) (now : Int)
    (start_date end_date : Option String) : String :=
  match start_date, end_date with
  | some _, some e =>
    match parse e with
    | some end_time =>
      let time_remaining := end_time - now
      if time_remaining ≤ 0 then
        "⏰ Time's up! Your hourglass has run out of sand."
      else
        let c := calculate_time_components time_remaining
        if c.1 > 0 then
          "⏳ Time remaining: " ++ intDecimalStr c.1 ++ " days, " ++
            intDecimalStr c.2.1 ++ " hours, " ++ intDecimalStr c.2.2.1 ++ " minutes"
        else if c.2.1 > 0 then
          "⏳ Time remaining: " ++ intDecimalStr c.2.1 ++ " hours, " ++
            intDecimalStr c.2.2.1 ++ " minutes"
        else
          "⏳ Time remaining: " ++ intDecimalStr c.2.2.1 ++ " minutes"
    | none => "⏳ Time keeps flowing... Check your hourglass progress!"
  | _, _ => "⏳ Time keeps flowing... Set your dates to see time remaining!"

/-- What the scheduler task observes at one wake: the result of locking the
enabled flag (`none` models a poisoned lock), the results of locking the two
date cells, and the current instant. -/
structure WakeEnv where
  enabled_lock : Option Bool
  start_lock : Option (Option String)
  end_lock : Option (Option String)
  now : Int
deriving Repr

/-- What one wake of the loop body does: leave the loop, skip this iteration
(date-cell lock failure, `continue` in the source), or attempt delivery of a
notification body. -/
inductive WakeOutcome where
  | exit : WakeOutcome
  | skip : WakeOutcome
  | notify : String → WakeOutcome
deriving DecidableEq, Repr

/-- One iteration of the loop body (main.rs lines 148–218): the enabled flag
is checked first — `break` when it is false or its lock fails; then each date
cell is read (`continue` on lock failure); then the body is built and its
delivery attempted (delivery failure is logged and swallowed, so the attempt
is recorded either way). -/
def wakeStep (parse : String → Option Int) (env : WakeEnv) : WakeOutcome :=
  match env.enabled_lock with
  | none => WakeOutcome.exit
  | some false => WakeOutcome.exit
  | some true =>
    match env.start_lock with
    | none => WakeOutcome.skip
    | some sd =>
      match env.end_lock with
      | none => WakeOutcome.skip
      | some ed => WakeOutcome.notify (notification_body parse env.now sd ed)

/-- A run of the scheduler loop over successive wake environments, returning
the notification bodies whose delivery it attempts, in order. -/
def taskRun (parse : String → Option Int) : List WakeEnv → List String
  | [] => []
  | env :: rest =>
    match wakeStep parse env with
    | WakeOutcome.exit => []
    | WakeOutcome.skip => taskRun parse rest
    | WakeOutcome.notify b => b :: taskRun parse rest

/-- C3: at every wake the enabled flag is checked first; whenever the lock
does not yield `true` — the flag is false, or the lock fails — the task leaves
its loop at once, and the whole remaining run attempts no notification
delivery, regardless of the dates, the clock, or later wakes (no external
cancellation is even modelled). -/
theorem C3_wake_self_terminates (parse : String → Option Int) (env : WakeEnv)
    (rest : List WakeEnv) (h : env.enabled_lock ≠ some true) :
    wakeStep parse env = WakeOutcome.exit ∧ taskRun parse (env :: rest) = [] := by
  have hstep : wakeStep parse env = WakeOutcome.exit := by
    unfold wakeStep
    rcases henv : env.enabled_lock with _ | b
    · rfl
    · cases b
      · rfl
      · exact absurd henv h
  exact ⟨hstep, by simp [taskRun, hstep]⟩

/-- Witness for C3: a wake that observes the flag false, with dates set and
further wakes pending. -/
theorem C3_wake_self_terminates_witness :
    wakeStep (parseConst 5) ⟨some false, some (some "a"), some (some "b"), 0⟩ =
        WakeOutcome.exit ∧
      taskRun (parseConst 5)
          (⟨some false, some (some "a"), some (some "b"), 0⟩ ::
            [⟨some true, some (some "a"), some (some "b"), 0⟩]) = [] :=
  C3_wake_self_terminates (parseConst 5) ⟨some false, some (some "a"), some (some "b"), 0⟩
    [⟨some true, some (some "a"), some (some "b"), 0⟩] (by decide)

/-!
Which unit names a notification body mentions is expressed by contiguous
substring containment over the underlying character lists.
-/

/-- Whether `p` is a prefix of `s`, by character comparison. -/
def listStartsWith : List Char → List Char → Bool
  | _, [] => true
  | [], _ :: _ => false
  | a :: s, b :: p => a == b && listStartsWith s p

/-- Whether `p` occurs contiguously inside `s`. -/
def listMentions : List Char → List Char → Bool
  | [], p => p.isEmpty
  | a :: s, p => listStartsWith (a :: s) p || listMentions s p

/-- Whether the string `pat` occurs contiguously inside the string `s`. -/
def mentionsUnit (s pat : String) : Bool := listMentions s.data pat.data

lemma listStartsWith_mem (s p : List Char) (h : listStartsWith s p = true) :
    ∀ c ∈ p, c ∈ s := by
  induction p generalizing s with
  | nil => intro c hc; simp at hc
  | cons b p ih =>
    intro c hc
    cases s with
    | nil => simp [listStartsWith] at h
    | cons a s =>
      simp only [listStartsWith, Bool.and_eq_true, beq_iff_eq] at h
      rcases List.mem_cons.mp hc with hc | hc
      · subst hc; rw [h.1]; exact List.mem_cons_self _ _
      · exact List.mem_cons_of_mem a (ih s h.2 c hc)

lemma listMentions_mem (s p : List Char) (h : listMentions s p = true) :
    ∀ c ∈ p, c ∈ s := by
  induction s with
  | nil =>
    intro c hc
    simp only [listMentions, List.isEmpty_iff] at h
    subst h
    simp at hc
  | cons a s ih =>
    simp only [listMentions, Bool.or_eq_true] at h
    rcases h with h | h
    · exact listStartsWith_mem _ _ h
    · intro c hc
      exact List.mem_cons_of_mem a (ih h c hc)

lemma listMentions_nil (t : List Char) : listMentions t [] = true := by
  cases t <;> simp [listMentions, listStartsWith]

lemma listStartsWith_nil (s : List Char) : listStartsWith s [] = true := by
  cases s <;> rfl

lemma listStartsWith_append (s t p : List Char) (h : listStartsWith s p = true) :
    listStartsWith (s ++ t) p = true := by
  induction p generalizing s with
  | nil => exact listStartsWith_nil _
  | cons b p ih =>
    cases s with
    | nil => simp [listStartsWith] at h
    | cons a s =>
      simp only [listStartsWith, Bool.and_eq_true, beq_iff_eq] at h ⊢
      exact ⟨h.1, ih s h.2⟩

/-- An occurrence in `s` is an occurrence in `s ++ t`. -/
lemma listMentions_append_l (s t p : List Char) (h : listMentions s p = true) :
    listMentions (s ++ t) p = true := by
  induction s with
  | nil =>
    simp only [listMentions, List.isEmpty_iff] at h
    subst h
    exact listMentions_nil t
  | cons a s ih =>
    simp only [listMentions, Bool.or_eq_true] at h ⊢
    rcases h with h | h
    · exact Or.inl (listStartsWith_append _ _ _ h)
    · exact Or.inr (ih h)

/-- An occurrence in `t` is an occurrence in `s ++ t`. -/
lemma listMentions_append_r (s t p : List Char) (h : listMentions t p = true) :
    listMentions (s ++ t) p = true := by
  induction s with
  | nil => simpa using h
  | cons a s ih =>
    simp only [listMentions, Bool.or_eq_true]
    exact Or.inr ih

/-- A pattern holding a character absent from `s` does not occur in `s`. -/
lemma listMentions_eq_false (s p : List Char) (ch : Char) (hp : ch ∈ p)
    (hs : ch ∉ s) : listMentions s p = false := by
  by_contra h
  rw [Bool.not_eq_false] at h
  exact hs (listMentions_mem s p h ch hp)

/-- The ten decimal digit characters. -/
def digitChars : List Char := ['0', '1', '2', '3', '4', '5', '6', '7', '8', '9']

lemma digitChar_mem (n : Nat) (h : n < 10) : digitChar n ∈ digitChars := by
  interval_cases n <;> decide

lemma natDecimalAux_chars (fuel : Nat) : ∀ n : Nat, ∀ c ∈ natDecimalAux fuel n, c ∈ digitChars := by
  induction fuel with
  | zero => intro n c hc; simp [natDecimalAux] at hc
  | succ fuel ih =>
    intro n c hc
    unfold natDecimalAux at hc
    by_cases h : n < 10
    · rw [if_pos h] at hc
      rw [List.mem_singleton.mp hc]
      exact digitChar_mem n h
    · rw [if_neg h] at hc
      rcases List.mem_append.mp hc with hc | hc
      · exact ih (n / 10) c hc
      · rw [List.mem_singleton.mp hc]
        exact digitChar_mem _ (Nat.mod_lt _ (by norm_num))

/-- Every character a rendered `i64` shows is a digit or the minus sign. -/
lemma intDecimalStr_chars (i : Int) :
    ∀ c ∈ (intDecimalStr i).data, c = '-' ∨ c ∈ digitChars := by
  intro c hc
  unfold intDecimalStr intDecimal natDecimal at hc
  by_cases h : i < 0
  · rw [if_pos h] at hc
    rcases List.mem_cons.mp hc with hc | hc
    · exact Or.inl hc
    · exact Or.inr (natDecimalAux_chars _ _ c hc)
  · rw [if_neg h] at hc
    exact Or.inr (natDecimalAux_chars _ _ c hc)

/-- Character-set bound for a concatenation. -/
lemma append_chars_sub (s t : String) (A : List Char)
    (hs : ∀ c ∈ s.data, c ∈ A) (ht : ∀ c ∈ t.data, c ∈ A) :
    ∀ c ∈ (s ++ t).data, c ∈ A := by
  intro c hc
  rw [String.data_append] at hc
  rcases List.mem_append.mp hc with h | h
  · exact hs c h
  · exact ht c h

/-- Character-set bound for a rendered number, given the ambient allowed set. -/
lemma intDecimalStr_chars_sub (i : Int) (A : List Char)
    (hm : '-' ∈ A) (hd : ∀ c ∈ digitChars, c ∈ A) :
    ∀ c ∈ (intDecimalStr i).data, c ∈ A := by
  intro c hc
  rcases intDecimalStr_chars i c hc with h | h
  · rw [h]; exact hm
  · exact hd c h

/-- Every character the days-branch body can show. -/
def daysBranchChars : List Char :=
  "⏳ Time remaining: days, hours, minutes0123456789-".data

/-- Every character the hours-branch body can show. -/
def hoursBranchChars : List Char :=
  "⏳ Time remaining: hours, minutes0123456789-".data

/-- Every character the minutes-branch body can show. -/
def minutesBranchChars : List Char :=
  "⏳ Time remaining: minutes0123456789-".data

lemma daysBody_chars (a b c : Int) :
    ∀ ch ∈ ("⏳ Time remaining: " ++ intDecimalStr a ++ " days, " ++ intDecimalStr b ++
        " hours, " ++ intDecimalStr c ++ " minutes").data, ch ∈ daysBranchChars :=
  append_chars_sub _ " minutes" _
    (append_chars_sub _ _ _
      (append_chars_sub _ " hours, " _
        (append_chars_sub _ _ _
          (append_chars_sub _ " days, " _
            (append_chars_sub _ _ _ (by decide)
              (intDecimalStr_chars_sub a _ (by decide) (by decide)))
            (by decide))
          (intDecimalStr_chars_sub b _ (by decide) (by decide)))
        (by decide))
      (intDecimalStr_chars_sub c _ (by decide) (by decide)))
    (by decide)

lemma hoursBody_chars (b c : Int) :
    ∀ ch ∈ ("⏳ Time remaining: " ++ intDecimalStr b ++ " hours, " ++ intDecimalStr c ++
        " minutes").data, ch ∈ hoursBranchChars :=
  append_chars_sub _ " minutes" _
    (append_chars_sub _ _ _
      (append_chars_sub _ " hours, " _
        (append_chars_sub _ _ _ (by decide)
          (intDecimalStr_chars_sub b _ (by decide) (by decide)))
        (by decide))
      (intDecimalStr_chars_sub c _ (by decide) (by decide)))
    (by decide)

lemma minutesBody_chars (c : Int) :
    ∀ ch ∈ ("⏳ Time remaining: " ++ intDecimalStr c ++ " minutes").data,
      ch ∈ minutesBranchChars :=
  append_chars_sub _ " minutes" _
    (append_chars_sub _ _ _ (by decide)
      (intDecimalStr_chars_sub c _ (by decide) (by decide)))
    (by decide)

/-- A pattern with a character outside the branch alphabet never occurs in
the branch body. -/
lemma mentionsUnit_eq_false_of_chars (s pat : String) (A : List Char) (ch : Char)
    (hp : ch ∈ pat.data) (hA : ch ∉ A) (hs : ∀ c ∈ s.data, c ∈ A) :
    mentionsUnit s pat = false := by
  apply listMentions_eq_false _ _ ch hp
  intro hmem
  exact hA (hs ch hmem)

/-- C5 counterexample: with remaining time 2 days, 5 hours, 10 minutes
(191,400,000 ms) the periodic notification body still mentions minutes — the
days branch prints days, hours and minutes, not just the largest two units. -/
theorem C5_counterexample :
    calculate_time_components 191400000 = (2, 5, 10, 0) ∧
      notification_body (parseConst 191400000) 0 (some "2030-01-01T00:00:00Z")
          (some "2030-01-03T05:10:00Z") =
        "⏳ Time remaining: 2 days, 5 hours, 10 minutes" ∧
      mentionsUnit
          (notification_body (parseConst 191400000) 0 (some "2030-01-01T00:00:00Z")
            (some "2030-01-03T05:10:00Z")) "minutes" = true := by
  refine ⟨by decide, by decide, by decide⟩

/-- C5 amended: for every non-expired remaining time the periodic body names
days, hours and minutes when days > 0; hours and minutes (and not days) when
days = 0 < hours; and minutes alone otherwise; seconds are never named in any
branch. -/
theorem C5_amended_body_units (parse : String → Option Int) (now t : Int)
    (sd ed : String) (b : String) (days hours minutes seconds : Int)
    (hp : parse ed = some t) (hpos : 0 < t - now)
    (hc : calculate_time_components (t - now) = (days, hours, minutes, seconds))
    (hb : notification_body parse now (some sd) (some ed) = b) :
    (days > 0 →
      mentionsUnit b "days" = true ∧ mentionsUnit b "hours" = true ∧
        mentionsUnit b "minutes" = true ∧ mentionsUnit b "seconds" = false) ∧
    (¬ days > 0 → hours > 0 →
      mentionsUnit b "days" = false ∧ mentionsUnit b "hours" = true ∧
        mentionsUnit b "minutes" = true ∧ mentionsUnit b "seconds" = false) ∧
    (¬ days > 0 → ¬ hours > 0 →
      mentionsUnit b "days" = false ∧ mentionsUnit b "hours" = false ∧
        mentionsUnit b "minutes" = true ∧ mentionsUnit b "seconds" = false) := by
  have hb2 : b =
      (if days > 0 then
        "⏳ Time remaining: " ++ intDecimalStr days ++ " days, " ++
          intDecimalStr hours ++ " hours, " ++ intDecimalStr minutes ++ " minutes"
      else if hours > 0 then
        "⏳ Time remaining: " ++ intDecimalStr hours ++ " hours, " ++
          intDecimalStr minutes ++ " minutes"
      else
        "⏳ Time remaining: " ++ intDecimalStr minutes ++ " minutes") := by
    rw [← hb]
    simp only [notification_body, hp]
    rw [if_neg (not_le.mpr hpos), hc]
  refine ⟨fun hd => ?_, fun hd hh => ?_, fun hd hh => ?_⟩
  · rw [hb2, if_pos hd]
    refine ⟨?_, ?_, ?_, ?_⟩
    · unfold mentionsUnit
      simp only [String.data_append, List.append_assoc]
      apply listMentions_append_r
      apply listMentions_append_r
      apply listMentions_append_l
      decide
    · unfold mentionsUnit
      simp only [String.data_append, List.append_assoc]
      apply listMentions_append_r
      apply listMentions_append_r
      apply listMentions_append_r
      apply listMentions_append_r
      apply listMentions_append_l
      decide
    · unfold mentionsUnit
      simp only [String.data_append, List.append_assoc]
      apply listMentions_append_r
      apply listMentions_append_r
      apply listMentions_append_r
      apply listMentions_append_r
      apply listMentions_append_r
      apply listMentions_append_r
      decide
    · exact mentionsUnit_eq_false_of_chars _ _ daysBranchChars 'c' (by decide)
        (by decide) (daysBody_chars days hours minutes)
  · rw [hb2, if_neg hd, if_pos hh]
    refine ⟨?_, ?_, ?_, ?_⟩
    · exact mentionsUnit_eq_false_of_chars _ _ hoursBranchChars 'y' (by decide)
        (by decide) (hoursBody_chars hours minutes)
    · unfold mentionsUnit
      simp only [String.data_append, List.append_assoc]
      apply listMentions_append_r
      apply listMentions_append_r
      apply listMentions_append_l
      decide
    · unfold mentionsUnit
      simp only [String.data_append, List.append_assoc]
      apply listMentions_append_r
      apply listMentions_append_r
      apply listMentions_append_r
      apply listMentions_append_r
      decide
    · exact mentionsUnit_eq_false_of_chars _ _ hoursBranchChars 'c' (by decide)
        (by decide) (hoursBody_chars hours minutes)
  · rw [hb2, if_neg hd, if_neg hh]
    refine ⟨?_, ?_, ?_, ?_⟩
    · exact mentionsUnit_eq_false_of_chars _ _ minutesBranchChars 'y' (by decide)
        (by decide) (minutesBody_chars minutes)
    · exact mentionsUnit_eq_false_of_chars _ _ minutesBranchChars 'h' (by decide)
        (by decide) (minutesBody_chars minutes)
    · unfold mentionsUnit
      simp only [String.data_append, List.append_assoc]
      apply listMentions_append_r
      apply listMentions_append_r
      decide
    · exact mentionsUnit_eq_false_of_chars _ _ minutesBranchChars 'c' (by decide)
        (by decide) (minutesBody_chars minutes)

/-- Witness for C5 amended at remaining time 191,400,000 ms (2 days, 5 hours,
10 minutes), whose body is the days branch. -/
theorem C5_amended_body_units_witness :
    ((2 : Int) > 0 →
      mentionsUnit "⏳ Time remaining: 2 days, 5 hours, 10 minutes" "days" = true ∧
        mentionsUnit "⏳ Time remaining: 2 days, 5 hours, 10 minutes" "hours" = true ∧
        mentionsUnit "⏳ Time remaining: 2 days, 5 hours, 10 minutes" "minutes" = true ∧
        mentionsUnit "⏳ Time remaining: 2 days, 5 hours, 10 minutes" "seconds" = false) ∧
      (¬ (2 : Int) > 0 → (5 : Int) > 0 →
        mentionsUnit "⏳ Time remaining: 2 days, 5 hours, 10 minutes" "days" = false ∧
          mentionsUnit "⏳ Time remaining: 2 days, 5 hours, 10 minutes" "hours" = true ∧
          mentionsUnit "⏳ Time remaining: 2 days, 5 hours, 10 minutes" "minutes" = true ∧
          mentionsUnit "⏳ Time remaining: 2 days, 5 hours, 10 minutes" "seconds" = false) ∧
      (¬ (2 : Int) > 0 → ¬ (5 : Int) > 0 →
        mentionsUnit "⏳ Time remaining: 2 days, 5 hours, 10 minutes" "days" = false ∧
          mentionsUnit "⏳ Time remaining: 2 days, 5 hours, 10 minutes" "hours" = false ∧
          mentionsUnit "⏳ Time remaining: 2 days, 5 hours, 10 minutes" "minutes" = true ∧
          mentionsUnit "⏳ Time remaining: 2 days, 5 hours, 10 minutes" "seconds" = false) :=
  C5_amended_body_units (parseConst 191400000) 0 191400000 "2030-01-01T00:00:00Z"
    "2030-01-03T05:10:00Z" "⏳ Time remaining: 2 days, 5 hours, 10 minutes"
    2 5 10 0 rfl (by decide) (by decide) (by decide)

end Hourglass
